import Mathlib

/-!
A shallow embedding of the Book Review API (Node/Express/Mongoose) and proofs
about its behaviour.  Each route handler and schema of the repository is
translated into an executable Lean definition; machine numbers of the source
are modelled as `Int`/`Nat`, and JavaScript floating-point arithmetic on review
ratings is modelled exactly with `ℚ`.  HTTP handler outcomes are `Except`
values: a route that responds with an error status is an `Except.error`, and a
successful response carries the new database state together with the response
payload.
-/

/-! ## Case-insensitive substring matching

Models the Mongo filter `{$regex: q, $options: 'i'}` for a query string
without regex metacharacters: a case-insensitive substring test. -/

/-- True when the second list is a leading segment of the first. -/
def leadMatch : List Char → List Char → Bool
  | _, [] => true
  | [], _ :: _ => false
  | h :: hs, n :: ns => h == n && leadMatch hs ns

/-- True when `needle` occurs contiguously somewhere in the second list. -/
def occursIn (needle : List Char) : List Char → Bool
  | [] => needle.isEmpty
  | h :: hs => leadMatch (h :: hs) needle || occursIn needle hs

/-- Lower-case every character of a string, as a character list. -/
def lowerChars (s : String) : List Char := s.toList.map Char.toLower

/-- Case-insensitive substring containment: `containsCI hay q` holds when
`q` occurs in `hay` regardless of letter case. -/
def containsCI (hay q : String) : Bool :=
  occursIn (lowerChars q) (lowerChars hay)

/-- Whitespace as removed by JavaScript's `trim`. -/
def isJsWhite (c : Char) : Bool := c == ' ' || c == '\t' || c == '\n' || c == '\r'

/-- The character list of a string with leading and trailing whitespace
removed (JavaScript `s.trim()`). -/
def trimmedChars (s : String) : List Char :=
  ((s.toList.dropWhile isJsWhite).reverse.dropWhile isJsWhite).reverse

/-- A Mongo regex condition applied to an optional document field: a document
that does not have the field does not match the condition. -/
def mongoContainsCI : Option String → String → Bool
  | none, _ => false
  | some s, q => containsCI s q

/-! ## Data model

`Book` mirrors the Mongoose `bookSchema` of src/models/Books.js and `Review`
mirrors the `reviewSchema`: a review document stores only rating, comment and
the two references, plus timestamps. -/

/-- A persisted book document (src/models/Books.js). -/
structure Book where
  id : Nat
  title : String
  author : String
  genre : String
  description : String
  publishedYear : Int
  isbn : Option String
  averageRating : ℚ
  totalReviews : Int
  addedBy : Nat
  createdAt : Nat
  deriving Repr, DecidableEq

/-- A persisted review document (the Review schema).  Its only paths are
rating, comment, book, user and timestamps. -/
structure Review where
  id : Nat
  rating : Int
  comment : String
  book : Nat
  user : Nat
  createdAt : Nat
  deriving Repr, DecidableEq

/-- The review schema has no `title` path, so on a review document a filter on
`title` sees a missing field. -/
def Review.titleField (_ : Review) : Option String := none

/-- The review schema has no `author` path either. -/
def Review.authorField (_ : Review) : Option String := none

/-- The document store: the books collection and the reviews collection. -/
structure DB where
  books : List Book
  reviews : List Review
  deriving Repr, DecidableEq

/-- Error outcomes of the route handlers, named after the spec's taxonomy. -/
inductive ApiError where
  | validation
  | notFound
  | authorization
  | conflict
  | server
  deriving Repr, DecidableEq

deriving instance DecidableEq for Except

/-- The HTTP status each handler responds with on each error outcome. -/
def statusOf : ApiError → Nat
  | .validation => 400
  | .notFound => 404
  | .authorization => 403
  | .conflict => 400
  | .server => 500

/-- Look a book up by id (`Book.findById`). -/
def findBook (db : DB) (bookId : Nat) : Option Book :=
  db.books.find? (fun b => b.id == bookId)

/-- Look a review up by id (`Review.findById`). -/
def findReview (db : DB) (reviewId : Nat) : Option Review :=
  db.reviews.find? (fun r => r.id == reviewId)

/-! ## Rating aggregator (bookSchema.methods.updateAverageRating) -/

/-- The ratings of all reviews referencing `bookId`
(the `$match: {book: this._id}` stage). -/
def ratingsFor (db : DB) (bookId : Nat) : List Int :=
  (db.reviews.filter (fun r => r.book == bookId)).map (fun r => r.rating)

/-- JavaScript `Math.round` on a non-negative rational: round half up.
Written with `num / den` so that it evaluates inside the kernel; it agrees
with `⌊q + 1/2⌋` by `jsRound_eq_floor` below. -/
def jsRound (q : ℚ) : ℤ := (q + 1 / 2).num / ((q + 1 / 2).den : ℤ)

/-- `Math.round(x * 10) / 10`: round to one decimal place, halves up. -/
def roundTenth (q : ℚ) : ℚ := (jsRound (q * 10) : ℚ) / 10

/-- The `$group` stage together with the branch on `stats.length`: the pair
(averageRating, count) stored back on the book.  Empty review set gives
`(0, 0)`. -/
def ratingStats (ratings : List Int) : ℚ × Int :=
  if ratings.length > 0 then
    (roundTenth ((ratings.sum : ℚ) / (ratings.length : ℚ)), (ratings.length : Int))
  else
    (0, 0)

/-- `book.updateAverageRating()`: recompute the two derived fields of one book
from the current reviews collection. -/
def Book.updateAverageRating (db : DB) (b : Book) : Book :=
  let stats := ratingStats (ratingsFor db b.id)
  { b with averageRating := stats.1, totalReviews := stats.2 }

/-- The body of the `reviewSchema.post('save')` hook: look the referenced book
up and, when it exists, run `updateAverageRating` on it and save it.  Saving
replaces the stored document with the updated one. -/
def runAggregatorHook (db : DB) (bookId : Nat) : DB :=
  { db with
    books := db.books.map (fun b =>
      if b.id == bookId then Book.updateAverageRating db b else b) }

/-! ## Pagination

All three list-shaped routes compute `skip = (page - 1) * limit`, slice with
`.skip(skip).limit(limit)`, and report `totalPages = Math.ceil(total / limit)`,
`hasNext = page < totalPages`, `hasPrev = page > 1`. -/

/-- The pagination block of a list response.  The `total` field is called
`totalBooks`, `totalResults` or `totalReviews` depending on the route. -/
structure Pagination where
  currentPage : Nat
  totalPages : Nat
  total : Nat
  hasNext : Bool
  hasPrev : Bool
  deriving Repr, DecidableEq

/-- `Math.ceil(total / limit)` on naturals (for `limit ≥ 1`). -/
def ceilPages (total limit : Nat) : Nat := (total + limit - 1) / limit

/-- `.skip((page - 1) * limit).limit(limit)` applied to an ordered result set. -/
def pageSlice {α : Type} (records : List α) (page limit : Nat) : List α :=
  (records.drop ((page - 1) * limit)).take limit

/-- The pagination block each route responds with. -/
def mkPagination (total page limit : Nat) : Pagination :=
  { currentPage := page
    totalPages := ceilPages total limit
    total := total
    hasNext := decide (page < ceilPages total limit)
    hasPrev := decide (page > 1) }

/-- Insert one record into a list kept in descending key order. -/
def insertByKeyDesc {α : Type} (key : α → Nat) (a : α) : List α → List α
  | [] => [a]
  | b :: bs => if key b ≤ key a then a :: b :: bs else b :: insertByKeyDesc key a bs

/-- `.sort({createdAt: -1})`: order records by descending key. -/
def sortByKeyDesc {α : Type} (key : α → Nat) : List α → List α
  | [] => []
  | a :: as => insertByKeyDesc key a (sortByKeyDesc key as)

/-! ## Book routes (the books router) -/

/-- The optional author/genre filter of GET /books: each given filter is a
case-insensitive substring condition, and both must hold when both are given. -/
def bookListFilter (authorQ genreQ : Option String) (b : Book) : Bool :=
  (match authorQ with | none => true | some a => containsCI b.author a) &&
  (match genreQ with | none => true | some g => containsCI b.genre g)

/-- GET /books: filter, sort by creation time descending, paginate. -/
def listBooks (db : DB) (page limit : Nat) (authorQ genreQ : Option String) :
    List Book × Pagination :=
  let filtered := db.books.filter (bookListFilter authorQ genreQ)
  let sorted := sortByKeyDesc Book.createdAt filtered
  (pageSlice sorted page limit, mkPagination filtered.length page limit)

/-- GET /books/:id: the book, its reviews sorted by creation time descending
and paginated, 404 when the book is absent. -/
def getBookDetail (db : DB) (bookId page limit : Nat) :
    Except ApiError (Book × List Review × Pagination) :=
  match findBook db bookId with
  | none => .error .notFound
  | some book =>
    let revs := db.reviews.filter (fun r => r.book == book.id)
    let sorted := sortByKeyDesc Review.createdAt revs
    .ok (book, pageSlice sorted page limit, mkPagination revs.length page limit)

/-- The ISBN pattern of the schema and of the POST /books validator: a
non-empty string of digits and hyphens holding exactly 10 or 13 digits and
ending in a digit. -/
def isbnFormatOk (s : String) : Bool :=
  let cs := s.toList
  cs.all (fun c => c.isDigit || c == '-') &&
  (decide ((cs.filter Char.isDigit).length = 10) ||
   decide ((cs.filter Char.isDigit).length = 13)) &&
  (match cs.getLast? with | some c => c.isDigit | none => false)

/-- The request body of POST /books.  The handler spreads the whole body into
the model (`const bookData = {...req.body, addedBy}`), so a body may also carry
values for the derived fields `averageRating` and `totalReviews`; they are kept
as optional fields here. -/
structure BookBody where
  title : String
  author : String
  genre : String
  description : String
  publishedYear : Int
  isbn : Option String
  averageRating : Option ℚ
  totalReviews : Option Int
  deriving Repr, DecidableEq

/-- The express-validator chain of POST /books: the four text fields are
non-empty after trimming, publishedYear lies in [1000, current year], and a
given isbn matches the pattern. -/
def validBookBody (currentYear : Int) (b : BookBody) : Bool :=
  !(trimmedChars b.title).isEmpty && !(trimmedChars b.author).isEmpty &&
  !(trimmedChars b.genre).isEmpty && !(trimmedChars b.description).isEmpty &&
  decide (1000 ≤ b.publishedYear) && decide (b.publishedYear ≤ currentYear) &&
  (match b.isbn with | none => true | some s => isbnFormatOk s)

/-- The bookSchema validators that run on `book.save()`: required text fields
within their maximum lengths, publishedYear in range, isbn pattern, and the
declared bounds 0 ≤ averageRating ≤ 5 and totalReviews ≥ 0. -/
def bookSchemaOk (currentYear : Int) (b : Book) : Bool :=
  b.title != "" && decide (b.title.length ≤ 200) &&
  b.author != "" && decide (b.author.length ≤ 100) &&
  b.genre != "" && decide (b.genre.length ≤ 50) &&
  b.description != "" && decide (b.description.length ≤ 2000) &&
  decide (1000 ≤ b.publishedYear) && decide (b.publishedYear ≤ currentYear) &&
  (match b.isbn with | none => true | some s => isbnFormatOk s) &&
  decide (0 ≤ b.averageRating) && decide (b.averageRating ≤ 5) &&
  decide (0 ≤ b.totalReviews)

/-- `const bookData = {...req.body, addedBy: req.user._id}; new Book(bookData)`:
the document built from the spread request body.  A body value for a derived
field wins over the schema default, which only applies to absent fields. -/
def buildBook (body : BookBody) (actingUserId newId now : Nat) : Book :=
  { id := newId
    title := body.title
    author := body.author
    genre := body.genre
    description := body.description
    publishedYear := body.publishedYear
    isbn := body.isbn
    averageRating := body.averageRating.getD 0
    totalReviews := body.totalReviews.getD 0
    addedBy := actingUserId
    createdAt := now }

/-- POST /books.  Validation errors from the express-validator chain answer
400.  A failure thrown inside the try block — a schema validation error on
save, or the duplicate-key error raised by the unique sparse index on isbn —
is caught by the generic catch and answered with status 500.  On success the
built document is appended to the books collection. -/
def addBook (db : DB) (currentYear : Int) (body : BookBody)
    (actingUserId newId now : Nat) : Except ApiError (DB × Book) :=
  if !(validBookBody currentYear body) then .error .validation
  else if !(bookSchemaOk currentYear (buildBook body actingUserId newId now)) then
    .error .server
  else if body.isbn.isSome && db.books.any (fun b => b.isbn == body.isbn) then
    .error .server
  else
    .ok ({ db with books := db.books ++ [buildBook body actingUserId newId now] },
         buildBook body actingUserId newId now)

/-! ## Search route (src/routes/search.js)

Line 3 of the handler reads `const Book = require('../models/Review')`: the
variable named `Book` is bound to the Review model, so `Book.find`,
`Book.countDocuments` and the sort/skip/limit chain all run against the
reviews collection.  A review document has no `title` or `author` path
(see the Review schema), so the `$or` filter matches no stored review. -/

/-- The handler's `searchFilter` applied to a document of the collection it
actually queries — a review document. -/
def searchFilterMatches (q : String) (r : Review) : Bool :=
  mongoContainsCI r.titleField q || mongoContainsCI r.authorField q

/-- The same `$or` filter read on a book document, i.e. what the filter means
on the books collection: title or author contains the query
case-insensitively. -/
def bookMatchesSearch (q : String) (b : Book) : Bool :=
  containsCI b.title q || containsCI b.author q

/-- GET /search: empty (after trimming) query answers 400; otherwise the
filter runs over the reviews collection (because of the require on line 3),
sorted by creation time descending and paginated. -/
def search (db : DB) (q : String) (page limit : Nat) :
    Except ApiError (String × List Review × Pagination) :=
  if (trimmedChars q).isEmpty then .error .validation
  else
    let matched := db.reviews.filter (searchFilterMatches q)
    let sorted := sortByKeyDesc Review.createdAt matched
    .ok (q, pageSlice sorted page limit, mkPagination matched.length page limit)

/-! ## Review routes -/

/-- The POST /books/:id/reviews validator chain (and the matching schema
bounds): rating is an integer in [1, 5] and the comment holds between 10 and
1000 characters. -/
def validReviewBody (rating : Int) (comment : String) : Bool :=
  decide (1 ≤ rating) && decide (rating ≤ 5) &&
  decide (10 ≤ comment.length) && decide (comment.length ≤ 1000)

/-- A document insert into the reviews collection.  The schema declares
`reviewSchema.index({book: 1, user: 1}, {unique: true})`, so the store itself
rejects a second document with the same (book, user) pair with a duplicate-key
error — independently of any handler-level pre-check.  A route catching that
error answers 500. -/
def insertReviewDoc (reviews : List Review) (r : Review) :
    Except ApiError (List Review) :=
  if reviews.any (fun r0 => r0.book == r.book && r0.user == r.user) then
    .error .server
  else .ok (reviews ++ [r])

/-- POST /books/:id/reviews: validate the body, 404 when the book is absent,
400 when this user already reviewed this book, otherwise insert the review;
`review.save()` fires the `post('save')` hook, which recomputes the book's
derived rating fields. -/
def submitReview (db : DB) (bookId actingUserId : Nat) (rating : Int)
    (comment : String) (newId now : Nat) : Except ApiError (DB × Review) :=
  if !(validReviewBody rating comment) then .error .validation
  else match findBook db bookId with
    | none => .error .notFound
    | some _ =>
      if db.reviews.any (fun r => r.book == bookId && r.user == actingUserId) then
        .error .conflict
      else
        match insertReviewDoc db.reviews
            { id := newId, rating := rating, comment := comment,
              book := bookId, user := actingUserId, createdAt := now } with
        | .error e => .error e
        | .ok reviews =>
          .ok (runAggregatorHook { db with reviews := reviews } bookId,
               { id := newId, rating := rating, comment := comment,
                 book := bookId, user := actingUserId, createdAt := now })

/-- The PUT /reviews/:id validator chain: both fields optional, a provided
rating is an integer in [1, 5], a provided comment holds 10 to 1000
characters. -/
def validUpdateBody (rating : Option Int) (comment : Option String) : Bool :=
  (match rating with
   | none => true
   | some v => decide (1 ≤ v) && decide (v ≤ 5)) &&
  (match comment with
   | none => true
   | some c => decide (10 ≤ c.length) && decide (c.length ≤ 1000))

/-- PUT /reviews/:id: validate, 404 when the review is absent, 403 when the
acting user is not the review's owner, otherwise assign exactly the provided
fields and save; `review.save()` fires the `post('save')` hook, which
recomputes the referenced book's derived rating fields. -/
def updateReview (db : DB) (reviewId actingUserId : Nat)
    (rating : Option Int) (comment : Option String) :
    Except ApiError (DB × Review) :=
  if !(validUpdateBody rating comment) then .error .validation
  else match findReview db reviewId with
    | none => .error .notFound
    | some review =>
      if review.user != actingUserId then .error .authorization
      else
        let review2 :=
          { review with
            rating := rating.getD review.rating
            comment := comment.getD review.comment }
        let db2 :=
          { db with
            reviews := db.reviews.map (fun r => if r.id == reviewId then review2 else r) }
        .ok (runAggregatorHook db2 review.book, review2)

/-- DELETE /reviews/:id: 404 when the review is absent, 403 when the acting
user is not the owner, otherwise `Review.findByIdAndDelete(id)` removes the
document.  `findByIdAndDelete` issues a query-level delete; it does not run
the document-level `post('remove')` middleware registered in the Review
schema (that middleware only fires on `document.remove()`), so the book's
derived rating fields are not recomputed on this path. -/
def deleteReview (db : DB) (reviewId actingUserId : Nat) : Except ApiError DB :=
  match findReview db reviewId with
  | none => .error .notFound
  | some review =>
    if review.user != actingUserId then .error .authorization
    else .ok { db with reviews := db.reviews.filter (fun r => r.id != reviewId) }

/-! ## Declared field bounds -/

/-- The bookSchema bounds on the two derived fields: averageRating between 0
and 5, totalReviews at least 0. -/
def BookOk (b : Book) : Prop :=
  0 ≤ b.averageRating ∧ b.averageRating ≤ 5 ∧ 0 ≤ b.totalReviews

/-- The reviewSchema bound on rating: between 1 and 5. -/
def ReviewOk (r : Review) : Prop := 1 ≤ r.rating ∧ r.rating ≤ 5

/-- The persisted-state invariant: every stored book and review satisfies its
declared bounds. -/
def DBInv (db : DB) : Prop :=
  (∀ b ∈ db.books, BookOk b) ∧ (∀ r ∈ db.reviews, ReviewOk r)

instance (b : Book) : Decidable (BookOk b) := by unfold BookOk; infer_instance

instance (r : Review) : Decidable (ReviewOk r) := by unfold ReviewOk; infer_instance

instance (db : DB) : Decidable (DBInv db) := by unfold DBInv; infer_instance

/-! ## Concrete fixtures

Small concrete states used to evaluate the handlers at specific inputs. -/

/-- A minimal valid book record with a chosen id, author, title and creation
time. -/
def plainBook (i : Nat) (t a : String) (c : Nat) : Book :=
  { id := i, title := t, author := a, genre := "Fiction",
    description := "A description", publishedYear := 1980, isbn := none,
    averageRating := 0, totalReviews := 0, addedBy := 1, createdAt := c }

/-- Books for the search scenario: one titled "Dune II", one authored
"Duneworth", one titled "Atlas" by another author. -/
def dbSearch : DB :=
  { books := [plainBook 1 "Dune II" "Frank Herbert" 3,
              plainBook 2 "Clay" "Duneworth" 2,
              plainBook 3 "Atlas" "Rand" 1],
    reviews := [] }

/-- A book whose stored aggregates (averageRating 3, totalReviews 2) are
consistent with two reviews of ratings 4 and 2. -/
def bookAgg : Book :=
  { plainBook 1 "Dune" "Frank Herbert" 3 with averageRating := 3, totalReviews := 2 }

/-- The rating-4 review of user 10 on book 1. -/
def reviewA : Review :=
  { id := 1, rating := 4, comment := "really great stuff", book := 1,
    user := 10, createdAt := 4 }

/-- The rating-2 review of user 20 on book 1. -/
def reviewB : Review :=
  { id := 2, rating := 2, comment := "not my cup of tea", book := 1,
    user := 20, createdAt := 5 }

/-- The state right after two users reviewed the book with ratings 4 and 2:
the stored aggregates are consistent with the review set. -/
def dbTwoReviews : DB := { books := [bookAgg], reviews := [reviewA, reviewB] }

/-- The state `deleteReview dbTwoReviews 2 20` produces: the review is gone,
the book record untouched. -/
def dbAfterDelete : DB := { books := [bookAgg], reviews := [reviewA] }

/-- A stored book carrying isbn 0306406152. -/
def bookWithIsbn : Book :=
  { plainBook 1 "First" "Someone" 1 with isbn := some "0306406152" }

/-- A state already holding a book with isbn 0306406152. -/
def dbIsbn : DB := { books := [bookWithIsbn], reviews := [] }

/-- A fully valid request body reusing the already-stored isbn 0306406152. -/
def bodyDupIsbn : BookBody :=
  { title := "Second", author := "Someone Else", genre := "Fiction",
    description := "Another description", publishedYear := 1990,
    isbn := some "0306406152", averageRating := none, totalReviews := none }

/-- A request body passing every documented field validation that also smuggles
in values for the derived fields: `averageRating: 5, totalReviews: 7`. -/
def bodyMass : BookBody :=
  { title := "Dune", author := "Frank Herbert", genre := "SciFi",
    description := "A desert planet epic", publishedYear := 1965, isbn := none,
    averageRating := some 5, totalReviews := some 7 }

/-- A plain valid request body with no extra fields. -/
def bodyPlain : BookBody :=
  { title := "Dune", author := "Frank Herbert", genre := "SciFi",
    description := "A desert planet epic", publishedYear := 1965, isbn := none,
    averageRating := none, totalReviews := none }

/-- The book document that POST /books builds from `bodyMass`: the spread
request body supplies the derived fields. -/
def bookFromMass : Book :=
  { id := 1, title := "Dune", author := "Frank Herbert", genre := "SciFi",
    description := "A desert planet epic", publishedYear := 1965, isbn := none,
    averageRating := 5, totalReviews := 7, addedBy := 7, createdAt := 100 }

/-- The state after POST /books with `bodyMass` on an empty store. -/
def dbAfterMass : DB := { books := [bookFromMass], reviews := [] }

/-- A collection of 25 indistinguishable valid books. -/
def db25 : DB :=
  { books := (List.range 25).map (fun i => plainBook (i + 1) "Title" "Author" (i + 1)),
    reviews := [] }

/-! ## Helper lemmas -/

theorem jsRound_eq_floor (q : ℚ) : jsRound q = ⌊q + 1 / 2⌋ := by
  rw [Rat.floor_def]; rfl

theorem length_insertByKeyDesc {α : Type} (key : α → Nat) (a : α) (l : List α) :
    (insertByKeyDesc key a l).length = l.length + 1 := by
  induction l with
  | nil => rfl
  | cons b bs ih =>
    by_cases h : key b ≤ key a
    · simp [insertByKeyDesc, h]
    · simp [insertByKeyDesc, h, ih]

theorem length_sortByKeyDesc {α : Type} (key : α → Nat) (l : List α) :
    (sortByKeyDesc key l).length = l.length := by
  induction l with
  | nil => rfl
  | cons a as ih => simp [sortByKeyDesc, length_insertByKeyDesc, ih]

theorem pageSlice_length_le {α : Type} (records : List α) (page limit : Nat) :
    (pageSlice records page limit).length ≤ limit := by
  simp [pageSlice]

theorem ceilPages_eq_ceil (total limit : Nat) (h : 1 ≤ limit) :
    (ceilPages total limit : ℤ) = ⌈(total : ℚ) / (limit : ℚ)⌉ := by
  have hl0 : (0 : ℚ) < (limit : ℚ) := by exact_mod_cast h
  symm
  rw [Int.ceil_eq_iff]
  have h1 : ceilPages total limit * limit ≤ total + limit - 1 :=
    Nat.div_mul_le_self _ _
  have h2 : total + limit - 1 < (ceilPages total limit + 1) * limit :=
    (Nat.div_lt_iff_lt_mul (by omega)).mp (Nat.lt_succ_self _)
  have hz1 : (ceilPages total limit : ℤ) * limit ≤ total + limit - 1 := by
    zify [show (1:ℕ) ≤ total + limit by omega] at h1
    exact h1
  have hz2 : (total : ℤ) + limit - 1 < ((ceilPages total limit : ℤ) + 1) * limit := by
    zify [show (1:ℕ) ≤ total + limit by omega] at h2
    exact h2
  have hzl : (1 : ℤ) ≤ (limit : ℤ) := by exact_mod_cast h
  have hz1' : ((ceilPages total limit : ℤ) - 1) * limit < total := by nlinarith
  have hz2' : (total : ℤ) ≤ (ceilPages total limit : ℤ) * limit := by nlinarith
  constructor
  · rw [lt_div_iff₀ hl0]
    calc (((ceilPages total limit : ℤ) : ℚ) - 1) * (limit : ℚ)
        = (((ceilPages total limit : ℤ) - 1) * (limit : ℤ) : ℤ) := by push_cast; ring
      _ < (total : ℚ) := by exact_mod_cast hz1'
  · rw [div_le_iff₀ hl0]
    calc (total : ℚ) ≤ ((ceilPages total limit : ℤ) * (limit : ℤ) : ℤ) := by
          exact_mod_cast hz2'
      _ = ((ceilPages total limit : ℤ) : ℚ) * (limit : ℚ) := by push_cast; ring

theorem ratingStats_bounds (ratings : List Int)
    (h : ∀ x ∈ ratings, 1 ≤ x ∧ x ≤ 5) :
    0 ≤ (ratingStats ratings).1 ∧ (ratingStats ratings).1 ≤ 5 ∧
      0 ≤ (ratingStats ratings).2 := by
  unfold ratingStats
  by_cases hlen : ratings.length > 0
  · simp only [hlen, if_pos]
    have hn : (0 : ℚ) < (ratings.length : ℚ) := by exact_mod_cast hlen
    have hsum0 : (0 : ℤ) ≤ ratings.sum :=
      List.sum_nonneg (fun x hx => le_trans (by norm_num) (h x hx).1)
    have hsum5 : ratings.sum ≤ (ratings.length : ℤ) * 5 := by
      have := List.sum_le_card_nsmul ratings 5 (fun x hx => (h x hx).2)
      simpa [nsmul_eq_mul] using this
    have hmean0 : (0 : ℚ) ≤ (ratings.sum : ℚ) / (ratings.length : ℚ) :=
      div_nonneg (by exact_mod_cast hsum0) (le_of_lt hn)
    have hmean5 : (ratings.sum : ℚ) / (ratings.length : ℚ) ≤ 5 := by
      rw [div_le_iff₀ hn]
      calc (ratings.sum : ℚ) ≤ ((ratings.length : ℤ) * 5 : ℤ) := by exact_mod_cast hsum5
        _ = 5 * (ratings.length : ℚ) := by push_cast; ring
    set m : ℚ := (ratings.sum : ℚ) / (ratings.length : ℚ) with hm
    have hfl0 : (0 : ℤ) ≤ ⌊m * 10 + 1 / 2⌋ := by
      rw [Int.le_floor]
      push_cast
      nlinarith
    have hfl50 : ⌊m * 10 + 1 / 2⌋ ≤ 50 := by
      have : ⌊m * 10 + 1 / 2⌋ < 51 := by
        rw [Int.floor_lt]
        push_cast
        nlinarith
      omega
    refine ⟨?_, ?_, ?_⟩
    · simp only [roundTenth, jsRound_eq_floor]
      positivity
    · simp only [roundTenth, jsRound_eq_floor]
      rw [div_le_iff₀ (by norm_num : (0:ℚ) < 10)]
      calc ((⌊m * 10 + 1 / 2⌋ : ℤ) : ℚ) ≤ ((50 : ℤ) : ℚ) := by exact_mod_cast hfl50
        _ = 5 * 10 := by norm_num
    · positivity
  · simp [hlen]

theorem ratingsFor_bounds (db : DB) (bookId : Nat)
    (h : ∀ r ∈ db.reviews, ReviewOk r) :
    ∀ x ∈ ratingsFor db bookId, 1 ≤ x ∧ x ≤ 5 := by
  intro x hx
  simp only [ratingsFor, List.mem_map, List.mem_filter] at hx
  obtain ⟨r, ⟨hr, _⟩, rfl⟩ := hx
  exact h r hr

/-! ## Claim theorems -/

/-- C5: `Recompute(bookId)` — the aggregator hook — sets the book's
averageRating to the arithmetic mean of the ratings of the reviews referencing
it, rounded to one decimal place (halves rounded up), and totalReviews to the
number of those reviews; with zero reviews it sets averageRating to 0 and
totalReviews to 0.  The updated book is persisted in the books collection,
every other record is unchanged. -/
theorem recompute_sets_rounded_mean_and_count (db : DB) (bookId : Nat) :
    (runAggregatorHook db bookId).reviews = db.reviews ∧
    (runAggregatorHook db bookId).books = db.books.map (fun b =>
      if b.id = bookId then
        { b with
          averageRating :=
            if ratingsFor db bookId = [] then 0
            else ((⌊((ratingsFor db bookId).sum : ℚ) /
                    ((ratingsFor db bookId).length : ℚ) * 10 + 1 / 2⌋ : ℤ) : ℚ) / 10
          totalReviews := ((ratingsFor db bookId).length : ℤ) }
      else b) := by
  refine ⟨rfl, ?_⟩
  apply List.map_congr_left
  intro b _
  by_cases hid : b.id = bookId
  · simp only [hid, beq_self_eq_true, if_pos, if_true]
    unfold Book.updateAverageRating ratingStats
    by_cases hnil : ratingsFor db bookId = []
    · simp [hnil, hid]
    · have hlen : (ratingsFor db bookId).length > 0 :=
        List.length_pos.mpr hnil
      simp only [hid, hlen, if_pos, hnil, if_neg, if_false]
      simp [roundTenth, jsRound_eq_floor, hnil]
  · simp only [if_neg hid]
    have : (b.id == bookId) = false := by simp [hid]
    simp [this]

/-- C6: for every state, page ≥ 1 and limit in [1, 50], the pagination block
of ListBooks and of Search satisfies totalPages = ceil(total / limit) for the
total count of records matching the route's filter, hasNext iff
page < totalPages, hasPrev iff page > 1, and the returned page holds at most
limit records; concretely, with 25 stored books and limit 10, page 1 returns
10 books with hasNext and without hasPrev, and page 3 returns 5 books with
hasPrev and without hasNext. -/
theorem pagination_block_spec :
    (∀ (db : DB) (page limit : Nat) (aq gq : Option String),
      1 ≤ page → 1 ≤ limit → limit ≤ 50 →
      ((listBooks db page limit aq gq).2.totalPages : ℤ)
          = ⌈((db.books.filter (bookListFilter aq gq)).length : ℚ) / (limit : ℚ)⌉ ∧
      ((listBooks db page limit aq gq).2.hasNext = true ↔
          page < (listBooks db page limit aq gq).2.totalPages) ∧
      ((listBooks db page limit aq gq).2.hasPrev = true ↔ 1 < page) ∧
      (listBooks db page limit aq gq).1.length ≤ limit) ∧
    (∀ (db : DB) (q : String) (page limit : Nat)
        (res : String × List Review × Pagination),
      1 ≤ page → 1 ≤ limit → limit ≤ 50 →
      search db q page limit = .ok res →
      ((res.2.2.totalPages : ℤ)
          = ⌈((db.reviews.filter (searchFilterMatches q)).length : ℚ) / (limit : ℚ)⌉ ∧
       (res.2.2.hasNext = true ↔ page < res.2.2.totalPages) ∧
       (res.2.2.hasPrev = true ↔ 1 < page) ∧
       res.2.1.length ≤ limit)) ∧
    ((listBooks db25 1 10 none none).1.length = 10 ∧
     (listBooks db25 1 10 none none).2.hasNext = true ∧
     (listBooks db25 1 10 none none).2.hasPrev = false ∧
     (listBooks db25 1 10 none none).2.totalPages = 3 ∧
     (listBooks db25 3 10 none none).1.length = 5 ∧
     (listBooks db25 3 10 none none).2.hasNext = false ∧
     (listBooks db25 3 10 none none).2.hasPrev = true) := by
  refine ⟨?_, ?_, ?_⟩
  · intro db page limit aq gq _ hl _
    refine ⟨?_, ?_, ?_, ?_⟩
    · simpa [listBooks, mkPagination] using
        ceilPages_eq_ceil (db.books.filter (bookListFilter aq gq)).length limit hl
    · simp [listBooks, mkPagination]
    · simp [listBooks, mkPagination]
    · exact pageSlice_length_le _ _ _
  · intro db q page limit res _ hl _ hok
    unfold search at hok
    by_cases hq : (trimmedChars q).isEmpty
    · simp [hq] at hok
    · simp only [hq, if_neg, Bool.false_eq_true, not_false_eq_true, if_false] at hok
      cases hok
      refine ⟨?_, ?_, ?_, ?_⟩
      · simpa [mkPagination] using
          ceilPages_eq_ceil (db.reviews.filter (searchFilterMatches q)).length limit hl
      · simp [mkPagination]
      · simp [mkPagination]
      · exact pageSlice_length_le _ _ _
  · refine ⟨?_, ?_, ?_, ?_, ?_, ?_, ?_⟩ <;> decide

/-- C1 (refuting evaluation): in a state whose books collection holds exactly
a book titled "Dune II", a book authored "Duneworth" and a book titled
"Atlas", the handler's own filter read on the books collection matches
exactly the first two — yet GET /search with query "dune" returns an empty
result set with total 0, because line 3 of src/routes/search.js binds the
variable `Book` to the Review model and the query therefore runs against the
reviews collection. -/
theorem search_returns_no_books :
    dbSearch.books.filter (bookMatchesSearch "dune")
        = [plainBook 1 "Dune II" "Frank Herbert" 3,
           plainBook 2 "Clay" "Duneworth" 2] ∧
    search dbSearch "dune" 1 10 = .ok ("dune", [], mkPagination 0 1 10) := by
  constructor <;> decide

/-- C2 (refuting evaluation): starting from a consistent state — one book
whose stored aggregates (averageRating 3, totalReviews 2) match its two
reviews of ratings 4 and 2 — the owner's DELETE /reviews/:id succeeds and
removes the rating-2 review, but the book's stored aggregates still read
(3, 2), while recomputing from the remaining review set [4] yields (4, 1):
`findByIdAndDelete` never fires the `post('remove')` aggregation hook. -/
theorem delete_leaves_aggregates_stale :
    deleteReview dbTwoReviews 2 20 = .ok dbAfterDelete ∧
    bookAgg.averageRating = 3 ∧ bookAgg.totalReviews = 2 ∧
    ratingsFor dbAfterDelete 1 = [4] ∧
    ratingStats [4] = (4, 1) := by
  refine ⟨by decide, by decide, by decide, by decide, ?_⟩
  norm_num [ratingStats, roundTenth, jsRound]

/-- C3 (counterexample): in a state already holding a book with
isbn 0306406152, POST /books with a fully valid body reusing that isbn does
not fail with the conflict outcome mapped to 400 — it fails with the server
outcome, which the API layer maps to HTTP 500: the duplicate-key error thrown
by the unique isbn index on save is swallowed by the handler's generic catch
block. -/
theorem duplicate_isbn_answers_500 :
    validBookBody 2026 bodyDupIsbn = true ∧
    addBook dbIsbn 2026 bodyDupIsbn 7 2 9 = .error .server ∧
    ApiError.server ≠ ApiError.conflict ∧
    statusOf ApiError.server = 500 ∧ (500 : Nat) ≠ 400 := by decide

/-- C3 (amended): whenever the acting user submits a valid book body whose
isbn is already carried by a stored book, AddBook fails — with the server
outcome that the API layer maps to HTTP status 500 — and, the result being an
error, no new book is persisted. -/
theorem duplicate_isbn_rejected_without_insert (db : DB) (currentYear : Int)
    (body : BookBody) (uid nid now : Nat) (s : String)
    (hv : validBookBody currentYear body = true)
    (hs : body.isbn = some s)
    (hdup : ∃ b ∈ db.books, b.isbn = some s) :
    addBook db currentYear body uid nid now = .error .server ∧
    statusOf .server = 500 := by
  refine ⟨?_, rfl⟩
  unfold addBook
  rw [hv]
  simp only [Bool.not_true, Bool.false_eq_true, if_false]
  split
  · rfl
  · obtain ⟨b, hb, hbisbn⟩ := hdup
    have hany : (body.isbn.isSome && db.books.any fun b => b.isbn == body.isbn)
        = true := by
      rw [hs]
      simp only [Option.isSome_some, Bool.true_and, List.any_eq_true]
      exact ⟨b, hb, by rw [hbisbn]; exact beq_self_eq_true _⟩
    rw [hany]
    rfl

/-- C4 (refuting evaluation): a request body that passes every documented
field validation but also carries `averageRating: 5` and `totalReviews: 7`
is accepted by POST /books, and — because the handler spreads the whole
request body into the model — GetBookDetail on the created book returns
averageRating 5 and totalReviews 7 rather than the derived defaults 0 and
0. -/
theorem addBook_passes_derived_fields_through :
    validBookBody 2026 bodyMass = true ∧
    addBook ⟨[], []⟩ 2026 bodyMass 7 1 100 = .ok (dbAfterMass, bookFromMass) ∧
    getBookDetail dbAfterMass 1 1 10
        = .ok (bookFromMass, [], mkPagination 0 1 10) ∧
    bookFromMass.averageRating = 5 ∧ bookFromMass.totalReviews = 7 := by
  refine ⟨by decide, by decide, by decide, by decide, by decide⟩

/-- C7: with the reviewed book present, a second SubmitReview by the same user
on the same book fails with the conflict outcome (mapped to 400) and, the
result being an error, creates no review; independently, the unique index
declared on (book, user) in the Review schema makes the document store itself
reject an insert that duplicates an existing (book, user) pair, so the
uniqueness does not rest on the handler's pre-check alone. -/
theorem second_review_conflicts :
    (∀ (db : DB) (bookId uid : Nat) (rating : Int) (comment : String)
        (nid now : Nat),
      validReviewBody rating comment = true →
      (findBook db bookId).isSome = true →
      (∃ r ∈ db.reviews, r.book = bookId ∧ r.user = uid) →
      submitReview db bookId uid rating comment nid now = .error .conflict ∧
      statusOf .conflict = 400) ∧
    (∀ (reviews : List Review) (r : Review),
      (∃ r0 ∈ reviews, r0.book = r.book ∧ r0.user = r.user) →
      insertReviewDoc reviews r = .error .server) := by
  constructor
  · intro db bookId uid rating comment nid now hv hb hex
    refine ⟨?_, rfl⟩
    unfold submitReview
    rw [hv]
    simp only [Bool.not_true, Bool.false_eq_true, if_false]
    obtain ⟨bk, hbk⟩ := Option.isSome_iff_exists.mp hb
    rw [hbk]
    obtain ⟨r0, hr0, hrb, hru⟩ := hex
    have hany : (db.reviews.any fun r => r.book == bookId && r.user == uid)
        = true := by
      refine List.any_eq_true.mpr ⟨r0, hr0, ?_⟩
      rw [hrb, hru]
      simp
    rw [hany]
    rfl
  · intro reviews r hex
    unfold insertReviewDoc
    obtain ⟨r0, hr0, hrb, hru⟩ := hex
    have hany : (reviews.any fun r0 => r0.book == r.book && r0.user == r.user)
        = true := by
      refine List.any_eq_true.mpr ⟨r0, hr0, ?_⟩
      rw [hrb, hru]
      simp
    rw [hany]
    rfl

/-- C7 witness: in the two-review state, user 10 submitting a second valid
review on book 1 receives the conflict outcome. -/
theorem second_review_conflicts_witness :
    (validReviewBody 3 "decent enough read" = true ∧
     (findBook dbTwoReviews 1).isSome = true ∧
     (∃ r ∈ dbTwoReviews.reviews, r.book = 1 ∧ r.user = 10)) ∧
    (submitReview dbTwoReviews 1 10 3 "decent enough read" 3 6
        = .error .conflict ∧
     statusOf .conflict = 400) :=
  ⟨⟨by decide, by decide, by decide⟩,
   second_review_conflicts.1 dbTwoReviews 1 10 3 "decent enough read" 3 6
     (by decide) (by decide) (by decide)⟩

/-- C8: UpdateReview by the review's owner with any subset of
{rating, comment} provided changes exactly the provided fields to the
provided values: every omitted field, and the review's id, book and user
references and creation time, are unchanged in the returned review and in the
stored copy. -/
theorem update_applies_exactly_provided_fields :
    ∀ (db : DB) (reviewId uid : Nat) (ro : Option Int) (co : Option String)
      (r : Review),
      validUpdateBody ro co = true →
      findReview db reviewId = some r →
      r.user = uid →
      ∃ db2, updateReview db reviewId uid ro co
          = .ok (db2, { r with rating := ro.getD r.rating,
                               comment := co.getD r.comment }) ∧
        db2.reviews = db.reviews.map (fun x =>
          if x.id = reviewId then
            { r with rating := ro.getD r.rating, comment := co.getD r.comment }
          else x) := by
  intro db reviewId uid ro co r hv hf hu
  unfold updateReview
  rw [hv]
  simp only [Bool.not_true, Bool.false_eq_true, if_false]
  rw [hf]
  dsimp only
  have hown : (r.user != uid) = false := by simp [hu]
  rw [hown]
  simp only [Bool.false_eq_true, if_false]
  refine ⟨_, rfl, ?_⟩
  simp only [runAggregatorHook]
  apply List.map_congr_left
  intro x _
  by_cases h : x.id = reviewId
  · simp [h]
  · simp [h]

/-- C8 witness: the owner updates only the rating of the rating-4 review; the
comment, references and timestamps stay as they were. -/
theorem update_applies_exactly_provided_fields_witness :
    (validUpdateBody (some 5) none = true ∧
     findReview dbTwoReviews 1 = some reviewA ∧
     reviewA.user = 10) ∧
    (∃ db2, updateReview dbTwoReviews 1 10 (some 5) none
        = .ok (db2, { reviewA with
                      rating := (some (5:Int)).getD reviewA.rating,
                      comment := (none : Option String).getD reviewA.comment }) ∧
      db2.reviews = dbTwoReviews.reviews.map (fun x =>
        if x.id = 1 then
          { reviewA with
            rating := (some (5:Int)).getD reviewA.rating,
            comment := (none : Option String).getD reviewA.comment }
        else x)) :=
  ⟨⟨by decide, by decide, by decide⟩,
   update_applies_exactly_provided_fields dbTwoReviews 1 10 (some 5) none reviewA
     (by decide) (by decide) (by decide)⟩

/-- C9: with a valid body, UpdateReview and DeleteReview by any user other
than the review's owner answer the authorization outcome (HTTP 403) — an
error result, so no stored record (the review or its book's aggregates) is
written — while the same calls by the owner succeed. -/
theorem ownership_checks :
    (∀ (db : DB) (rid uid : Nat) (ro : Option Int) (co : Option String)
        (r : Review),
      validUpdateBody ro co = true →
      findReview db rid = some r →
      r.user ≠ uid →
      updateReview db rid uid ro co = .error .authorization ∧
      statusOf .authorization = 403) ∧
    (∀ (db : DB) (rid uid : Nat) (r : Review),
      findReview db rid = some r →
      r.user ≠ uid →
      deleteReview db rid uid = .error .authorization ∧
      statusOf .authorization = 403) ∧
    (∀ (db : DB) (rid : Nat) (ro : Option Int) (co : Option String) (r : Review),
      validUpdateBody ro co = true →
      findReview db rid = some r →
      ∃ db2 r2, updateReview db rid r.user ro co = .ok (db2, r2)) ∧
    (∀ (db : DB) (rid : Nat) (r : Review),
      findReview db rid = some r →
      ∃ db2, deleteReview db rid r.user = .ok db2) := by
  refine ⟨?_, ?_, ?_, ?_⟩
  · intro db rid uid ro co r hv hf hu
    refine ⟨?_, rfl⟩
    unfold updateReview
    rw [hv]
    simp only [Bool.not_true, Bool.false_eq_true, if_false]
    rw [hf]
    dsimp only
    have hown : (r.user != uid) = true := by simpa using hu
    rw [hown]
    rfl
  · intro db rid uid r hf hu
    refine ⟨?_, rfl⟩
    unfold deleteReview
    rw [hf]
    dsimp only
    have hown : (r.user != uid) = true := by simpa using hu
    rw [hown]
    rfl
  · intro db rid ro co r hv hf
    unfold updateReview
    rw [hv]
    simp only [Bool.not_true, Bool.false_eq_true, if_false]
    rw [hf]
    dsimp only
    have hown : (r.user != r.user) = false := by simp
    rw [hown]
    exact ⟨_, _, rfl⟩
  · intro db rid r hf
    unfold deleteReview
    rw [hf]
    dsimp only
    have hown : (r.user != r.user) = false := by simp
    rw [hown]
    exact ⟨_, rfl⟩

/-- C9 witness: user 99 can neither update nor delete user 20's review, while
user 20's own calls succeed. -/
theorem ownership_checks_witness :
    (validUpdateBody none (some "a change of heart here") = true ∧
     findReview dbTwoReviews 2 = some reviewB ∧
     reviewB.user ≠ 99) ∧
    (updateReview dbTwoReviews 2 99 none (some "a change of heart here")
        = .error .authorization ∧
     deleteReview dbTwoReviews 2 99 = .error .authorization ∧
     statusOf .authorization = 403) ∧
    (∃ db2 r2, updateReview dbTwoReviews 2 reviewB.user none
        (some "a change of heart here") = .ok (db2, r2)) ∧
    (∃ db2, deleteReview dbTwoReviews 2 reviewB.user = .ok db2) :=
  ⟨⟨by decide, by decide, by decide⟩,
   ⟨(ownership_checks.1 dbTwoReviews 2 99 none (some "a change of heart here")
       reviewB (by decide) (by decide) (by decide)).1,
    (ownership_checks.2.1 dbTwoReviews 2 99 reviewB (by decide) (by decide)).1,
    rfl⟩,
   ownership_checks.2.2.1 dbTwoReviews 2 none (some "a change of heart here")
     reviewB (by decide) (by decide),
   ownership_checks.2.2.2 dbTwoReviews 2 reviewB (by decide)⟩

/-- The aggregator hook keeps every declared field bound intact. -/
theorem runAggregatorHook_inv (db : DB) (bookId : Nat) (h : DBInv db) :
    DBInv (runAggregatorHook db bookId) := by
  obtain ⟨hb, hr⟩ := h
  refine ⟨?_, hr⟩
  intro b hmem
  simp only [runAggregatorHook, List.mem_map] at hmem
  obtain ⟨b0, hb0, heq⟩ := hmem
  by_cases hid : (b0.id == bookId) = true
  · rw [if_pos hid] at heq
    subst heq
    have hbd := ratingStats_bounds (ratingsFor db b0.id)
      (ratingsFor_bounds db b0.id hr)
    exact ⟨hbd.1, hbd.2.1, hbd.2.2⟩
  · rw [if_neg hid] at heq
    subst heq
    exact hb b0 hb0

/-- C10: the empty store satisfies the declared bounds — every book has
0 ≤ averageRating ≤ 5 and totalReviews ≥ 0, every review has
1 ≤ rating ≤ 5 — and every operation (the aggregator recompute, AddBook,
SubmitReview, UpdateReview and DeleteReview) preserves them, so they hold in
every reachable persisted state. -/
theorem declared_bounds_invariant :
    DBInv { books := [], reviews := [] } ∧
    (∀ (db : DB) (bookId : Nat), DBInv db → DBInv (runAggregatorHook db bookId)) ∧
    (∀ (db : DB) (cy : Int) (body : BookBody) (uid nid now : Nat)
        (db2 : DB) (bk : Book),
      DBInv db → addBook db cy body uid nid now = .ok (db2, bk) → DBInv db2) ∧
    (∀ (db : DB) (bookId uid : Nat) (rating : Int) (comment : String)
        (nid now : Nat) (db2 : DB) (rv : Review),
      DBInv db → submitReview db bookId uid rating comment nid now = .ok (db2, rv) →
      DBInv db2) ∧
    (∀ (db : DB) (rid uid : Nat) (ro : Option Int) (co : Option String)
        (db2 : DB) (r2 : Review),
      DBInv db → updateReview db rid uid ro co = .ok (db2, r2) → DBInv db2) ∧
    (∀ (db : DB) (rid uid : Nat) (db2 : DB),
      DBInv db → deleteReview db rid uid = .ok db2 → DBInv db2) := by
  refine ⟨⟨by simp, by simp⟩, runAggregatorHook_inv, ?_, ?_, ?_, ?_⟩
  · -- AddBook
    intro db cy body uid nid now db2 bk hinv hok
    unfold addBook at hok
    split at hok
    · simp at hok
    · split at hok
      · simp at hok
      · split at hok
        · simp at hok
        · rename_i hval hsch hdup
          simp only [Except.ok.injEq, Prod.mk.injEq] at hok
          obtain ⟨rfl, rfl⟩ := hok
          have hs : bookSchemaOk cy (buildBook body uid nid now) = true := by
            revert hsch
            cases bookSchemaOk cy (buildBook body uid nid now) <;> simp
          unfold bookSchemaOk at hs
          simp only [Bool.and_eq_true, decide_eq_true_eq] at hs
          refine ⟨?_, hinv.2⟩
          intro b hbmem
          rw [List.mem_append] at hbmem
          rcases hbmem with hmem | hmem
          · exact hinv.1 b hmem
          · rw [List.mem_singleton] at hmem
            subst hmem
            exact ⟨hs.1.1.2, hs.1.2, hs.2⟩
  · -- SubmitReview
    intro db bookId uid rating comment nid now db2 rv hinv hok
    unfold submitReview at hok
    split at hok
    · simp at hok
    · rename_i hval
      cases hfb : findBook db bookId with
      | none => rw [hfb] at hok; simp at hok
      | some bookFound =>
        rw [hfb] at hok
        dsimp only at hok
        split at hok
        · simp at hok
        · unfold insertReviewDoc at hok
          split at hok
          · simp at hok
          · rename_i reviewsIns heqIns
            split at heqIns
            · simp at heqIns
            · simp only [Except.ok.injEq] at heqIns
              subst heqIns
              simp only [Except.ok.injEq, Prod.mk.injEq] at hok
              obtain ⟨rfl, rfl⟩ := hok
              apply runAggregatorHook_inv
              refine ⟨hinv.1, ?_⟩
              intro r hrmem
              rw [List.mem_append] at hrmem
              rcases hrmem with hmem | hmem
              · exact hinv.2 r hmem
              · rw [List.mem_singleton] at hmem
                subst hmem
                have hvb : validReviewBody rating comment = true := by
                  revert hval
                  cases validReviewBody rating comment <;> simp
                unfold validReviewBody at hvb
                simp only [Bool.and_eq_true, decide_eq_true_eq] at hvb
                exact ⟨hvb.1.1.1, hvb.1.1.2⟩
  · -- UpdateReview
    intro db rid uid ro co db2 r2 hinv hok
    unfold updateReview at hok
    split at hok
    · simp at hok
    · rename_i hval
      cases hfr : findReview db rid with
      | none => rw [hfr] at hok; simp at hok
      | some r =>
        rw [hfr] at hok
        dsimp only at hok
        split at hok
        · simp at hok
        · simp only [Except.ok.injEq, Prod.mk.injEq] at hok
          obtain ⟨rfl, rfl⟩ := hok
          apply runAggregatorHook_inv
          refine ⟨hinv.1, ?_⟩
          intro x hxmem
          simp only [List.mem_map] at hxmem
          obtain ⟨x0, hx0, heq⟩ := hxmem
          have hrOk : ReviewOk r :=
            hinv.2 r (List.mem_of_find?_eq_some hfr)
          have hvb : validUpdateBody ro co = true := by
            revert hval
            cases validUpdateBody ro co <;> simp
          by_cases hid : (x0.id == rid) = true
          · rw [if_pos hid] at heq
            subst heq
            cases ro with
            | none => exact ⟨hrOk.1, hrOk.2⟩
            | some v =>
              unfold validUpdateBody at hvb
              simp only [Bool.and_eq_true, decide_eq_true_eq] at hvb
              exact ⟨hvb.1.1, hvb.1.2⟩
          · rw [if_neg hid] at heq
            subst heq
            exact hinv.2 x0 hx0
  · -- DeleteReview
    intro db rid uid db2 hinv hok
    unfold deleteReview at hok
    cases hfr : findReview db rid with
    | none => rw [hfr] at hok; simp at hok
    | some r =>
      rw [hfr] at hok
      dsimp only at hok
      split at hok
      · simp at hok
      · simp only [Except.ok.injEq] at hok
        subst hok
        refine ⟨hinv.1, ?_⟩
        intro x hxmem
        rw [List.mem_filter] at hxmem
        exact hinv.2 x hxmem.1

/-- C3 witness (for the amended statement): the concrete duplicate-isbn
request against the concrete store. -/
theorem duplicate_isbn_rejected_without_insert_witness :
    (validBookBody 2026 bodyDupIsbn = true ∧
     bodyDupIsbn.isbn = some "0306406152" ∧
     (∃ b ∈ dbIsbn.books, b.isbn = some "0306406152")) ∧
    (addBook dbIsbn 2026 bodyDupIsbn 7 2 9 = .error .server ∧
     statusOf .server = 500) :=
  ⟨⟨by decide, by decide, by decide⟩,
   duplicate_isbn_rejected_without_insert dbIsbn 2026 bodyDupIsbn 7 2 9
     "0306406152" (by decide) (by decide) (by decide)⟩

/-- C6 witness: the general pagination statement applied to the 25-book store
at page 1 with limit 10. -/
theorem pagination_block_spec_witness :
    ((1 : Nat) ≤ 1 ∧ (1 : Nat) ≤ 10 ∧ (10 : Nat) ≤ 50) ∧
    (listBooks db25 1 10 none none).1.length ≤ 10 :=
  ⟨⟨by decide, by decide, by decide⟩,
   (pagination_block_spec.1 db25 1 10 none none
     (by decide) (by decide) (by decide)).2.2.2⟩

/-- C10 witness: the two-review state satisfies the bounds, and so does the
state DeleteReview produces from it. -/
theorem declared_bounds_invariant_witness :
    DBInv dbTwoReviews ∧
    deleteReview dbTwoReviews 2 20 = .ok dbAfterDelete ∧
    DBInv dbAfterDelete :=
  ⟨by decide, by decide,
   declared_bounds_invariant.2.2.2.2.2 dbTwoReviews 2 20 dbAfterDelete
     (by decide) (by decide)⟩
